import Mathlib

/-
  Verification of the "scan ble" Node-RED node in
  src/noble/node-red-contrib-noble.js.

  Shallow embedding: the discover handler (lines 46-90), the inline
  iBeacon payload decoding (lines 58-64), the proximity classification
  (lines 69-77), the startScan/stopScan controller (lines 93-133), the
  stateChange handler (lines 136-144), the startup policy (lines 147-164),
  the input handler (lines 167-178) and the close handler (lines 181-188).

  Machine bytes are modelled as Nat (with explicit % 256 where the source
  reads a signed byte), buffers as List Nat, JavaScript values inspected
  by the input handler as an inductive JVal, and runtime exceptions
  (ReferenceError, TypeError) as an Except error channel.
-/

/-- The noble adapter power states (noble.state). -/
inductive AdapterState
  | unknown
  | resetting
  | unsupported
  | unauthorized
  | poweredOff
  | poweredOn
  deriving DecidableEq

/-- JavaScript values as far as the input handler inspects them:
`typeof` and own-property lookup. `null` is included because in
JavaScript `typeof null` is the string "object". -/
inductive JVal
  | null
  | bool (b : Bool)
  | num (n : Int)
  | str (s : String)
  | obj (fields : List (String × JVal))

/-- Own-property lookup on an object's field list (hasOwnProperty plus
property read, first binding wins). -/
def getOwn : List (String × JVal) → String → Option JVal
  | [], _ => none
  | (k, v) :: rest, key => if k = key then some v else getOwn rest key

/-- JavaScript typeof. `typeof null` is "object". -/
def jtypeof : JVal → String
  | .null => "object"
  | .bool _ => "boolean"
  | .num _ => "number"
  | .str _ => "string"
  | .obj _ => "object"

/-- Lowercase hex digit for a nibble, as Buffer.toString('hex') renders it. -/
def hexDigit (n : Nat) : Char :=
  if n < 10 then Char.ofNat (48 + n) else Char.ofNat (87 + n)

/-- One byte as two lowercase hex characters. -/
def hexByte (b : Nat) : String :=
  String.mk [hexDigit (b / 16 % 16), hexDigit (b % 16)]

/-- Buffer.prototype.toString('hex'): lowercase hex, no separators
(line 61: manufacturerData.slice(4, 20).toString('hex')). -/
def bufToHex (bs : List Nat) : String :=
  String.join (bs.map hexByte)

/-- Buffer.prototype.readUInt16BE: big-endian unsigned 16-bit read
(lines 62-63). -/
def readUInt16BE (bs : List Nat) (off : Nat) : Nat :=
  256 * bs.getD off 0 + bs.getD (off + 1) 0

/-- Buffer.prototype.readInt8: signed two's-complement 8-bit read
(line 64). -/
def readInt8 (bs : List Nat) (off : Nat) : Int :=
  if bs.getD off 0 % 256 < 128 then ((bs.getD off 0 % 256 : Nat) : Int)
  else ((bs.getD off 0 % 256 : Nat) : Int) - 256

/-- The four iBeacon fields the discover handler extracts (lines 61-64). -/
structure BeaconFields where
  proximityUuid : String
  major : Nat
  minor : Nat
  measuredPower : Int
  deriving DecidableEq

/-- The payload decoding of lines 57-64: absent manufacturer data, or
manufacturer data shorter than 25 bytes, yields no beacon fields;
otherwise bytes[4..20) render as the hex proximity UUID, bytes[20..22)
and bytes[22..24) are big-endian 16-bit major/minor, byte[24] is the
signed measured power. -/
def decodeBeacon : Option (List Nat) → Option BeaconFields
  | none => none
  | some md =>
    if 25 ≤ md.length then
      some { proximityUuid := bufToHex ((md.drop 4).take 16)
           , major := readUInt16BE md 20
           , minor := readUInt16BE md 22
           , measuredPower := readInt8 md 24 }
    else none

/-- What the discover handler reads from a noble peripheral. -/
structure Peripheral where
  uuid : String
  address : String
  localName : Option String
  manufacturerData : Option (List Nat)
  rssi : Int

/-- The discovery message node.send emits (lines 47-55 assemble it; the
timestamp/detectedAt/detectedBy fields carry wall-clock and host data and
are omitted from the model). `beacon` holds the optional iBeacon fields
of lines 79-85; in this source those assignments are never reached (see
`discoverHandler`). -/
structure DiscoveryMsg where
  peripheralUuid : String
  address : String
  localName : Option String
  rssi : Int
  beacon : Option BeaconFields
  deriving DecidableEq

/-- JavaScript runtime exceptions the handlers can raise. -/
inductive JsError
  | referenceError
  | typeError
  deriving DecidableEq

/-- The discover handler, lines 46-90.  The base message is built from the
peripheral (lines 47-55).  When the manufacturer data passes the 25-byte
check (lines 57-59), lines 61-64 compute the four beacon fields and then
line 66 evaluates the identifier `rssi`:
  var accuracy = Math.pow(12.0, 1.5 * ((rssi / measuredPower) - 1));
No variable named `rssi` is bound in any enclosing scope (the peripheral
RSSI is only ever stored as msg.rssi on line 54), so this line raises a
ReferenceError and node.send on line 89 is never reached for a
conforming payload.  Otherwise the base message is sent unchanged. -/
def discoverHandler (p : Peripheral) : Except JsError DiscoveryMsg :=
  match decodeBeacon p.manufacturerData with
  | some _ => .error .referenceError
  | none => .ok { peripheralUuid := p.uuid
                , address := p.address
                , localName := p.localName
                , rssi := p.rssi
                , beacon := none }

/-- The status message of startScan/stopScan and of the startup
else-branch (lines 96-101, 116-121, 151-156). -/
structure StatusMsg where
  stateChange : Bool
  error : Bool
  state : AdapterState
  deriving DecidableEq

/-- The node.warn calls in the source, by site. -/
inductive Warning
  | unableToStart (state : AdapterState)
  | stoppedByAdapterChange
  | incorrectInput
  deriving DecidableEq

/-- Observable outputs: node.send of a status or discovery message,
adapter calls noble.startScanning / noble.stopScanning, node.warn. -/
inductive Output
  | statusMsg (m : StatusMsg)
  | startCall
  | stopCall
  | discoveryMsg (m : DiscoveryMsg)
  | warn (w : Warning)
  deriving DecidableEq

/-- Mutable node state: node.scanning (initially undefined, hence falsy),
the adapter's current noble.state, the pending setTimeout message of the
startup else-branch (lines 151-161), and whether the noble listeners are
still attached (noble.removeAllListeners on line 187 detaches them). -/
structure NodeState where
  scanning : Bool
  adapter : AdapterState
  pendingMsg : Option StatusMsg
  listeners : Bool
  deriving DecidableEq

/-- startScan, lines 93-110: if node.scanning is falsy, send a status
message (state read from noble.state now) and issue noble.startScanning.
node.scanning is set to true only inside the startScanning completion
callback (line 107), which arrives later as a separate event. -/
def startScan (s : NodeState) (stateChange error : Bool) : NodeState × List Output :=
  if s.scanning then (s, [])
  else (s, [.statusMsg { stateChange := stateChange, error := error, state := s.adapter }
           , .startCall])

/-- stopScan, lines 113-133: if node.scanning is truthy, send a status
message, issue noble.stopScanning (node.scanning is set to false only in
its completion callback, line 127), and when error is set, warn. -/
def stopScan (s : NodeState) (stateChange error : Bool) : NodeState × List Output :=
  if s.scanning then
    (s, [.statusMsg { stateChange := stateChange, error := error, state := s.adapter }
        , .stopCall] ++ (if error then [.warn .stoppedByAdapterChange] else []))
  else (s, [])

/-- The input handler, lines 167-178.  The guard is
  msg.hasOwnProperty("payload") && typeof msg.payload == "object"
    && msg.payload.hasOwnProperty("scan")
When msg.payload is null, `typeof msg.payload` is "object" so the guard
proceeds to `msg.payload.hasOwnProperty("scan")`, which raises a
TypeError (cannot read property of null).  Inside the guard,
scan === true starts, scan === false stops, anything else falls through
to the warning, as does every message failing the guard. -/
def inputHandler (s : NodeState) (msg : List (String × JVal)) :
    Except JsError (NodeState × List Output) :=
  match getOwn msg "payload" with
  | some p =>
    if jtypeof p = "object" then
      match p with
      | .null => .error .typeError
      | .obj flds =>
        match getOwn flds "scan" with
        | some (.bool true) => .ok (startScan s false false)
        | some (.bool false) => .ok (stopScan s false false)
        | _ => .ok (s, [.warn .incorrectInput])
      | _ => .ok (s, [.warn .incorrectInput])
    else .ok (s, [.warn .incorrectInput])
  | none => .ok (s, [.warn .incorrectInput])

/-- Events driving the node: a noble stateChange notification, the
asynchronous completion callbacks of startScanning/stopScanning
(lines 104-108 and 124-128), an inbound message, node close, the
3-second setTimeout of line 159 firing, and a noble discover
notification. -/
inductive Event
  | stateChange (s : AdapterState)
  | startComplete
  | stopComplete
  | inputMsg (msg : List (String × JVal))
  | close
  | timerFire
  | discover (p : Peripheral)

/-- One event step of the node.
  stateChange (lines 136-144): noble.state has already changed when the
    handler runs; the handler itself only runs while the noble listeners
    are attached.
  startComplete/stopComplete: the completion callbacks set node.scanning
    (lines 107, 127).
  close (lines 181-188): stopScan(false, false) then
    noble.removeAllListeners().  Note there is no clearTimeout: the
    pending setTimeout message is left in place.
  timerFire (lines 158-160): node.send of the captured message; the
    timer fires regardless of close.
  discover: the discover handler runs while the noble listeners are
    attached. -/
def step (s : NodeState) : Event → Except JsError (NodeState × List Output)
  | .stateChange a =>
    let s1 : NodeState := { s with adapter := a }
    if s.listeners then
      if a = .poweredOn then .ok (startScan s1 true false)
      else if s1.scanning then .ok (stopScan s1 true true)
      else .ok (s1, [])
    else .ok (s1, [])
  | .startComplete => .ok ({ s with scanning := true }, [])
  | .stopComplete => .ok ({ s with scanning := false }, [])
  | .inputMsg msg => inputHandler s msg
  | .close =>
    let r := stopScan s false false
    .ok ({ r.1 with listeners := false }, r.2)
  | .timerFire =>
    match s.pendingMsg with
    | some m => .ok ({ s with pendingMsg := none }, [.statusMsg m])
    | none => .ok (s, [])
  | .discover p =>
    if s.listeners then
      match discoverHandler p with
      | .ok m => .ok (s, [.discoveryMsg m])
      | .error e => .error e
    else .ok (s, [])

/-- Run a sequence of events, accumulating outputs, stopping at the
first uncaught exception. -/
def run (s : NodeState) : List Event → Except JsError (NodeState × List Output)
  | [] => .ok (s, [])
  | e :: es =>
    match step s e with
    | .error err => .error err
    | .ok (s1, outs1) =>
      match run s1 es with
      | .error err => .error err
      | .ok (s2, outs2) => .ok (s2, outs1 ++ outs2)

/-- Node construction, lines 147-164: with the adapter already poweredOn,
startScan(false, false) runs immediately; otherwise a status message
capturing the CURRENT noble.state is built, its emission is deferred via
setTimeout (3000 ms), and a warning is issued. -/
def construct (a0 : AdapterState) : NodeState × List Output :=
  let s0 : NodeState := { scanning := false, adapter := a0, pendingMsg := none, listeners := true }
  if a0 = .poweredOn then startScan s0 false false
  else ({ s0 with pendingMsg := some { stateChange := false, error := true, state := a0 } }
       , [.warn (.unableToStart a0)])

/-- The outputs of a run, empty if it raised. -/
def outputsOf : Except JsError (NodeState × List Output) → List Output
  | .ok r => r.2
  | .error _ => []

/-- Number of noble.startScanning calls in an output list. -/
def countStarts (outs : List Output) : Nat :=
  outs.countP fun o => match o with | .startCall => true | _ => false

/-- Number of noble.stopScanning calls in an output list. -/
def countStops (outs : List Output) : Nat :=
  outs.countP fun o => match o with | .stopCall => true | _ => false

/-- Whether a JavaScript value is null. -/
def isNullV : JVal → Bool
  | .null => true
  | _ => false

/-- The boolean scan field of an object payload, if any: exactly the
commands the input handler accepts. -/
def scanFieldOf : JVal → Option Bool
  | .obj flds =>
    (match getOwn flds "scan" with
     | some (.bool b) => some b
     | _ => none)
  | _ => none

/-- The proximity zones of lines 69-77. -/
inductive Zone
  | unknown
  | immediate
  | near
  | far
  deriving DecidableEq

/-- The zone classification of lines 69-77, threshold checks in source
order.  Numeric accuracy values are modelled as rationals (every IEEE
double the source compares is rational, and 0.5 and 4.0 are exact). -/
def zoneOf (accuracy : ℚ) : Zone :=
  if accuracy < 0 then .unknown
  else if accuracy < 1/2 then .immediate
  else if accuracy < 4 then .near
  else .far

/-- The accuracy expression of line 66,
  Math.pow(12.0, 1.5 * ((rssi / measuredPower) - 1)),
over the reals, with the (unbound, see `discoverHandler`) identifier
`rssi` modelled as a parameter holding the peripheral RSSI, the evident
intent of the surrounding code. -/
noncomputable def codeAccuracy (rssi measuredPower : ℝ) : ℝ :=
  (12 : ℝ) ^ ((1.5 : ℝ) * (rssi / measuredPower - 1))

/-- Modelled from the spec: the accuracy formula as the specification
states it, accuracy = 12.0 * (rssi / measuredPower)^1.5, for comparison
with `codeAccuracy`. -/
noncomputable def specAccuracy (rssi measuredPower : ℝ) : ℝ :=
  (12 : ℝ) * (rssi / measuredPower) ^ (1.5 : ℝ)

/-- A 25-byte iBeacon manufacturer-data payload: 4 prefix bytes, then
UUID bytes 0x01..0x10, major 0x00 0x2A, minor 0x00 0x01, measured power
0xC4. -/
def exampleMD : List Nat :=
  [76, 0, 2, 21,
   1, 2, 3, 4, 5, 6, 7, 8, 9, 10, 11, 12, 13, 14, 15, 16,
   0, 42,
   0, 1,
   196]

/-- A discovery carrying the conforming 25-byte payload. -/
def examplePeripheral : Peripheral :=
  { uuid := "e2c56db5dffb"
  , address := "00:11:22:33:44:55"
  , localName := some "beacon"
  , manufacturerData := some exampleMD
  , rssi := -60 }

/-- The inbound message with payload scan = true. -/
def scanOn : List (String × JVal) :=
  [("payload", .obj [("scan", .bool true)])]

/-- The spec's example of a wrongly shaped command. -/
def badCommand : List (String × JVal) :=
  [("payload", .obj [("enableScan", .str "yes")])]

/-- An inbound message whose payload is null. -/
def nullPayload : List (String × JVal) :=
  [("payload", .null)]

/-- The node state right after construction with the adapter poweredOff. -/
def initOff : NodeState := (construct .poweredOff).1

/-- Claim C4: for every manufacturer-data input of at least 25 bytes, the
decoder extracts bytes[4..20) as the lowercase-hex proximity UUID,
bytes[20..22) as big-endian unsigned major, bytes[22..24) as big-endian
unsigned minor, and byte[24] as signed two's-complement measured power. -/
theorem C4_beacon_extraction (bs : List Nat) (h : 25 ≤ bs.length) :
    decodeBeacon (some bs) =
      some { proximityUuid := bufToHex ((bs.drop 4).take 16)
           , major := 256 * bs.getD 20 0 + bs.getD 21 0
           , minor := 256 * bs.getD 22 0 + bs.getD 23 0
           , measuredPower :=
               if bs.getD 24 0 % 256 < 128 then ((bs.getD 24 0 % 256 : Nat) : Int)
               else ((bs.getD 24 0 % 256 : Nat) : Int) - 256 } := by
  simp [decodeBeacon, h, readUInt16BE, readInt8]

/-- Claim C4 witness: on the 25-byte payload with UUID bytes 0x01..0x10,
major 0x00 0x2A, minor 0x00 0x01 and power byte 0xC4, the decoder yields
proximityUuid "0102030405060708090a0b0c0d0e0f10", major 42, minor 1,
measuredPower -60. -/
theorem C4_beacon_extraction_witness :
    25 ≤ exampleMD.length ∧
    decodeBeacon (some exampleMD) =
      some { proximityUuid := "0102030405060708090a0b0c0d0e0f10"
           , major := 42, minor := 1, measuredPower := -60 } :=
  ⟨by decide, (C4_beacon_extraction exampleMD (by decide)).trans (by decide)⟩

/-- Claim C5: absent manufacturer data, or manufacturer data shorter than
25 bytes, yields no beacon fields, and the discovery is still emitted as
a normal event (with the optional beacon fields omitted), not an error. -/
theorem C5_short_input_no_beacon (md : Option (List Nat))
    (h : ∀ bs, md = some bs → bs.length < 25) :
    decodeBeacon md = none ∧
    ∀ p : Peripheral, p.manufacturerData = md →
      discoverHandler p =
        .ok { peripheralUuid := p.uuid, address := p.address
            , localName := p.localName, rssi := p.rssi, beacon := none } := by
  have hd : decodeBeacon md = none := by
    cases md with
    | none => rfl
    | some bs =>
      have hlt := h bs rfl
      simp [decodeBeacon, Nat.not_le.mpr hlt]
  refine ⟨hd, fun p hp => ?_⟩
  unfold discoverHandler
  rw [hp, hd]

/-- Claim C5 witness: a 3-byte manufacturer data yields no beacon fields
and the discovery is emitted unchanged. -/
theorem C5_short_input_no_beacon_witness :
    decodeBeacon (some [2, 21, 0]) = none ∧
    discoverHandler { uuid := "u", address := "a", localName := none
                    , manufacturerData := some [2, 21, 0], rssi := -42 } =
      .ok { peripheralUuid := "u", address := "a", localName := none
          , rssi := -42, beacon := none } := by
  have h := C5_short_input_no_beacon (some [2, 21, 0])
    (by intro bs hb; cases hb; decide)
  exact ⟨h.1, h.2 _ rfl⟩

/-- Claim C2 (code bug evidence): a discovery whose manufacturer data is
a conforming 25-byte beacon payload makes the discover handler evaluate
the unbound identifier `rssi` on line 66, raising a ReferenceError before
node.send; the discovery is dropped instead of being emitted, so it is
false that every discovery emits exactly one event. -/
theorem C2_conforming_discovery_raises :
    discoverHandler examplePeripheral = .error .referenceError := rfl

/-- Claim C6: the zone classification evaluates the thresholds in source
order — negative accuracy is Unknown, then accuracy below 0.5 is
Immediate, then accuracy below 4.0 is Near, and everything else is Far;
in particular accuracy exactly 0.5 is Near and accuracy exactly 4.0 is
Far. -/
theorem C6_zone_classification :
    (∀ a : ℚ,
      (a < 0 ∧ zoneOf a = .unknown)
      ∨ (0 ≤ a ∧ a < 1/2 ∧ zoneOf a = .immediate)
      ∨ (1/2 ≤ a ∧ a < 4 ∧ zoneOf a = .near)
      ∨ (4 ≤ a ∧ zoneOf a = .far))
    ∧ zoneOf (1/2) = .near ∧ zoneOf (1/2) ≠ .immediate
    ∧ zoneOf 4 = .far ∧ zoneOf 4 ≠ .near := by
  have hhalf : zoneOf (1/2) = .near := by
    unfold zoneOf
    rw [if_neg (by norm_num), if_neg (by norm_num), if_pos (by norm_num)]
  have hfour : zoneOf 4 = .far := by
    unfold zoneOf
    rw [if_neg (by norm_num), if_neg (by norm_num), if_neg (by norm_num)]
  refine ⟨fun a => ?_, hhalf, by rw [hhalf]; decide, hfour, by rw [hfour]; decide⟩
  by_cases h1 : a < 0
  · exact Or.inl ⟨h1, by unfold zoneOf; rw [if_pos h1]⟩
  · by_cases h2 : a < 1/2
    · exact Or.inr (Or.inl ⟨le_of_not_lt h1, h2,
        by unfold zoneOf; rw [if_neg h1, if_pos h2]⟩)
    · by_cases h3 : a < 4
      · exact Or.inr (Or.inr (Or.inl ⟨le_of_not_lt h2, h3,
          by unfold zoneOf; rw [if_neg h1, if_neg h2, if_pos h3]⟩))
      · exact Or.inr (Or.inr (Or.inr ⟨le_of_not_lt h3,
          by unfold zoneOf; rw [if_neg h1, if_neg h2, if_neg h3]⟩))

/-- Claim C1 counterexample: at rssi = -60 and measuredPower = -60 the
source expression Math.pow(12.0, 1.5 * ((rssi / measuredPower) - 1))
evaluates to 1, while the claimed formula 12.0 * (rssi/measuredPower)^1.5
evaluates to 12; the two formulas disagree. -/
theorem C1_formula_counterexample :
    codeAccuracy (-60) (-60) = 1 ∧ specAccuracy (-60) (-60) = 12 ∧
    codeAccuracy (-60) (-60) ≠ specAccuracy (-60) (-60) := by
  have hr : ((-60 : ℝ) / (-60 : ℝ)) = 1 := by norm_num
  have hc : codeAccuracy (-60) (-60) = 1 := by
    unfold codeAccuracy
    rw [hr, show ((1.5 : ℝ) * ((1 : ℝ) - 1)) = 0 by norm_num, Real.rpow_zero]
  have hs : specAccuracy (-60) (-60) = 12 := by
    unfold specAccuracy
    rw [hr, Real.one_rpow, mul_one]
  exact ⟨hc, hs, by rw [hc, hs]; norm_num⟩

/-- Claim C1 (amended): the code's accuracy expression is
12.0 ^ (1.5 * ((rssi / measuredPower) - 1)), equivalently
12 ^ (1.5 * ratio) / 12 ^ 1.5, so an equal RSSI and measured power give
accuracy 1 (not 12 as the spec's formula would). -/
theorem C1_accuracy_formula :
    (∀ r mp : ℝ,
      codeAccuracy r mp = (12 : ℝ) ^ ((1.5 : ℝ) * (r / mp)) / (12 : ℝ) ^ (1.5 : ℝ))
    ∧ (∀ mp : ℝ, mp ≠ 0 → codeAccuracy mp mp = 1) := by
  constructor
  · intro r mp
    unfold codeAccuracy
    rw [mul_sub, mul_one, Real.rpow_sub (by norm_num : (0 : ℝ) < 12)]
  · intro mp h
    unfold codeAccuracy
    rw [div_self h, show ((1.5 : ℝ) * ((1 : ℝ) - 1)) = 0 by norm_num, Real.rpow_zero]

/-- Claim C1 witness: the equal-operands case at measured power -60. -/
theorem C1_accuracy_formula_witness :
    ((-60 : ℝ) ≠ 0) ∧ codeAccuracy (-60) (-60) = 1 :=
  ⟨by norm_num, C1_accuracy_formula.2 (-60) (by norm_num)⟩

/-- Claim C3 counterexample: from a freshly constructed node, two scan-on
commands with no start-completion in between issue two startScanning
calls, because the guard reads node.scanning, which is set only in the
asynchronous completion callback. -/
theorem C3_double_start_counterexample :
    countStarts (outputsOf (run initOff [.inputMsg scanOn, .inputMsg scanOn])) = 2 := by
  rfl

/-- Claim C3 (amended): once the first start's completion has confirmed
the Scanning state, further scan-on requests issue no further
startScanning call (exactly one call in total); in general, any scan-on
command arriving with node.scanning already true is a no-op. -/
theorem C3_single_start_after_confirm :
    (countStarts (outputsOf
        (run initOff [.inputMsg scanOn, .startComplete, .inputMsg scanOn])) = 1)
    ∧ (countStarts (outputsOf
        (run initOff [.inputMsg scanOn, .startComplete, .inputMsg scanOn, .inputMsg scanOn])) = 1)
    ∧ (∀ s : NodeState, s.scanning = true →
        step s (.inputMsg scanOn) = .ok (s, [])) := by
  refine ⟨rfl, rfl, fun s h => ?_⟩
  have hstep : step s (.inputMsg scanOn) = .ok (startScan s false false) := rfl
  rw [hstep]
  unfold startScan
  rw [h]
  simp

/-- Claim C3 witness: a node with confirmed Scanning state ignores a
further scan-on command. -/
theorem C3_single_start_after_confirm_witness :
    ({ scanning := true, adapter := .poweredOn, pendingMsg := none
     , listeners := true } : NodeState).scanning = true
    ∧ step { scanning := true, adapter := .poweredOn, pendingMsg := none
           , listeners := true } (.inputMsg scanOn)
        = .ok ({ scanning := true, adapter := .poweredOn, pendingMsg := none
               , listeners := true }, []) :=
  ⟨rfl, C3_single_start_after_confirm.2.2 _ rfl⟩

/-- Claim C7 counterexample: closing the node before the 3-second timer
fires does not cancel the deferred status emission — there is no
clearTimeout in the close handler — so the error-flagged StatusEvent is
still emitted after shutdown. -/
theorem C7_not_cancelled_counterexample :
    Output.statusMsg { stateChange := false, error := true, state := .poweredOff }
      ∈ outputsOf (run initOff [.close, .timerFire]) := by
  decide

/-- Claim C7 (amended): when the adapter is not poweredOn at
construction, a warning is emitted immediately and an error-flagged
StatusEvent with the construction-time state is emitted when the delayed
timer fires; the deferred emission is NOT cancelled by shutdown — it is
emitted identically whether or not close happened first. -/
theorem C7_deferred_status :
    (construct .poweredOff).2 = [.warn (.unableToStart .poweredOff)]
    ∧ outputsOf (run initOff [.timerFire])
        = [.statusMsg { stateChange := false, error := true, state := .poweredOff }]
    ∧ outputsOf (run initOff [.close, .timerFire])
        = [.statusMsg { stateChange := false, error := true, state := .poweredOff }] :=
  ⟨rfl, rfl, rfl⟩

/-- Claim C8: the close handler performs an unconditional stop request —
exactly one stopScanning call when node.scanning is set, none otherwise,
never an error or a warning — and in every state detaches the noble
listeners. -/
theorem C8_close_behavior (s : NodeState) :
    step s .close
      = .ok ({ s with listeners := false },
          if s.scanning then
            [.statusMsg { stateChange := false, error := false, state := s.adapter }
            , .stopCall]
          else [])
    ∧ countStops (outputsOf (step s .close)) = (if s.scanning then 1 else 0)
    ∧ ({ s with listeners := false } : NodeState).listeners = false := by
  cases hs : s.scanning <;>
    simp [step, stopScan, hs, countStops, outputsOf]

/-- Claim C9 counterexample: a message whose payload is null passes the
`typeof msg.payload == "object"` check (typeof null is "object"), so the
handler evaluates `msg.payload.hasOwnProperty("scan")` on null and raises
a TypeError — no warning is emitted, contradicting the claim that every
non-conforming command is rejected with a warning. -/
theorem C9_null_payload_counterexample :
    step initOff (.inputMsg nullPayload) = .error .typeError := rfl

/-- Claim C9 (amended): every inbound message whose payload is absent, or
is not an object carrying a boolean scan field — EXCEPT a null payload —
is rejected with a warning and causes no state change, no adapter call
and no event. -/
theorem C9_invalid_command_warns (s : NodeState) (msg : List (String × JVal))
    (h : ∀ p, getOwn msg "payload" = some p →
          isNullV p = false ∧ scanFieldOf p = none) :
    step s (.inputMsg msg) = .ok (s, [.warn .incorrectInput]) := by
  have hstep : step s (.inputMsg msg) = inputHandler s msg := rfl
  rw [hstep]
  unfold inputHandler
  cases hp : getOwn msg "payload" with
  | none => rfl
  | some p =>
    obtain ⟨hn, hsf⟩ := h p hp
    cases p with
    | null => simp [isNullV] at hn
    | bool b => rfl
    | num n => rfl
    | str s2 => rfl
    | obj flds =>
      show (match getOwn flds "scan" with
            | some (JVal.bool true) => Except.ok (startScan s false false)
            | some (JVal.bool false) => Except.ok (stopScan s false false)
            | _ => Except.ok (s, [Output.warn Warning.incorrectInput]))
          = Except.ok (s, [Output.warn Warning.incorrectInput])
      cases hscan : getOwn flds "scan" with
      | none => rfl
      | some v =>
        cases v with
        | null => rfl
        | bool b =>
          have h2 : (match getOwn flds "scan" with
                     | some (JVal.bool bb) => some bb
                     | _ => none) = (none : Option Bool) := hsf
          rw [hscan] at h2
          exact absurd (show (some b : Option Bool) = none from h2) (by simp)
        | num n => rfl
        | str s3 => rfl
        | obj flds2 => rfl

/-- Claim C9 witness: the spec's example command with payload
enableScan = "yes" is rejected with a warning and has no effect. -/
theorem C9_invalid_command_warns_witness :
    step initOff (.inputMsg badCommand) = .ok (initOff, [.warn .incorrectInput]) :=
  C9_invalid_command_warns initOff badCommand (by
    intro p hp
    have hp' : some (JVal.obj [("enableScan", JVal.str "yes")]) = some p := hp
    injection hp' with h
    subst h
    exact ⟨rfl, rfl⟩)

/-- Helper: one successful step followed by a successful run. -/
theorem run_cons_ok (s s1 : NodeState) (e : Event) (es : List Event)
    (outs1 : List Output) (r : NodeState × List Output)
    (h1 : step s e = .ok (s1, outs1)) (h2 : run s1 es = .ok r) :
    run s (e :: es) = .ok (r.1, outs1 ++ r.2) := by
  simp only [run, h1, h2]

/-- Helper: a stateChange notification only updates the recorded adapter
state; every status message it can emit (via startScan or stopScan, both
invoked with stateChange = true on lines 139 and 142) carries
stateChange = true, and the pending timer message is untouched. -/
theorem step_stateChange_spec (s : NodeState) (a : AdapterState) :
    ∃ outs, step s (.stateChange a) = .ok ({ s with adapter := a }, outs)
      ∧ ∀ sm : StatusMsg, Output.statusMsg sm ∈ outs → sm.stateChange = true := by
  by_cases hl : s.listeners
  · by_cases ha : a = .poweredOn
    · by_cases hs : s.scanning
      · exact ⟨[], by simp [step, hl, ha, startScan, hs], by simp⟩
      · refine ⟨[Output.statusMsg { stateChange := true, error := false, state := a },
            Output.startCall],
          by simp [step, hl, ha, startScan, hs], ?_⟩
        intro sm hsm
        simp at hsm
        rw [hsm]
    · by_cases hs : s.scanning
      · refine ⟨[Output.statusMsg { stateChange := true, error := true, state := a },
            Output.stopCall, Output.warn .stoppedByAdapterChange],
          by simp [step, hl, ha, stopScan, hs], ?_⟩
        intro sm hsm
        simp at hsm
        rw [hsm]
      · exact ⟨[], by simp [step, hl, ha, hs], by simp⟩
  · exact ⟨[], by simp [step, hl], by simp⟩

/-- Helper: running any sequence of adapter state changes followed by the
timer firing emits the pending status message unchanged, and no other
status message with stateChange = false appears. -/
theorem run_pending_preserved (sts : List AdapterState) (s : NodeState) (m : StatusMsg)
    (hm : s.pendingMsg = some m) :
    ∃ r : NodeState × List Output,
      run s (sts.map Event.stateChange ++ [Event.timerFire]) = .ok r
      ∧ Output.statusMsg m ∈ r.2
      ∧ ∀ sm : StatusMsg, sm.stateChange = false → Output.statusMsg sm ∈ r.2 → sm = m := by
  induction sts generalizing s with
  | nil =>
    refine ⟨({ s with pendingMsg := none }, [.statusMsg m]), ?_, by simp, ?_⟩
    · simp [run, step, hm]
    · intro sm _ hsm
      simp at hsm
      exact hsm
  | cons a rest ih =>
    obtain ⟨outs1, hstep, hflag⟩ := step_stateChange_spec s a
    obtain ⟨r, hrun, hmem, huniq⟩ := ih { s with adapter := a } hm
    refine ⟨(r.1, outs1 ++ r.2), ?_, List.mem_append.mpr (Or.inr hmem), ?_⟩
    · rw [List.map_cons, List.cons_append]
      exact run_cons_ok _ _ _ _ _ _ hstep hrun
    · intro sm hflag0 hsm
      rcases List.mem_append.mp hsm with hin | hin
      · exact absurd (hflag sm hin) (by simp [hflag0])
      · exact huniq sm hflag0 hin

/-- Claim C10: when the adapter is not poweredOn at construction, the
deferred status message captures the construction-time adapter state;
whatever adapter state changes occur before the timer fires, the emitted
event still reports the construction-time state (and it is the only
emitted status message with stateChange = false). -/
theorem C10_construction_time_state (a0 : AdapterState) (h : a0 ≠ .poweredOn)
    (sts : List AdapterState) :
    ∃ r : NodeState × List Output,
      run (construct a0).1 (sts.map Event.stateChange ++ [Event.timerFire]) = .ok r
      ∧ Output.statusMsg { stateChange := false, error := true, state := a0 } ∈ r.2
      ∧ ∀ sm : StatusMsg, sm.stateChange = false → Output.statusMsg sm ∈ r.2 →
          sm = { stateChange := false, error := true, state := a0 } := by
  apply run_pending_preserved
  simp only [construct]
  rw [if_neg h]

/-- Claim C10 witness: constructed with the adapter poweredOff, then the
adapter turns poweredOn before the timer fires; the deferred event still
reports poweredOff. -/
theorem C10_construction_time_state_witness :
    (AdapterState.poweredOff ≠ AdapterState.poweredOn)
    ∧ ∃ r : NodeState × List Output,
        run (construct .poweredOff).1
            ([AdapterState.poweredOn].map Event.stateChange ++ [Event.timerFire]) = .ok r
        ∧ Output.statusMsg { stateChange := false, error := true, state := .poweredOff } ∈ r.2
        ∧ ∀ sm : StatusMsg, sm.stateChange = false → Output.statusMsg sm ∈ r.2 →
            sm = { stateChange := false, error := true, state := .poweredOff } :=
  ⟨by decide, C10_construction_time_state .poweredOff (by decide) [.poweredOn]⟩
